import Mathlib

/-!
# Verification of the sFlow datagram decoder

A shallow embedding of the Go sFlow decoder (package `sflow`) over byte
buffers modelled as `List Nat` (each element a byte value).  Machine
integers are modelled as `Nat`; the one place where Go's 32-bit
truncation of a slice length matters (`uint32(len(...))`) is written out
as `% 2 ^ 32`.  Fallible decoders return `Except Err _`, mirroring the
Go `error` returns; `Header.ParseSamples`, which in Go returns the pair
`([]Sample, error)`, is embedded as an explicit pair so that the
"no partial output on error" behaviour is a theorem, not a typing
artefact.
-/

namespace Sflow

/-- Byte access `data[i]`: the Go code always bounds-checks before
indexing, so a default of 0 is never observed on the checked paths. -/
def getB (data : List Nat) (i : Nat) : Nat :=
  data.getD i 0

/-- Big-endian combination of four byte values. -/
def u32be (a b c d : Nat) : Nat :=
  ((a * 256 + b) * 256 + c) * 256 + d

/-- `binary.BigEndian.Uint32(data[i:i+4])`. -/
def readU32 (data : List Nat) (i : Nat) : Nat :=
  u32be (getB data i) (getB data (i + 1)) (getB data (i + 2)) (getB data (i + 3))

/-- `binary.BigEndian.Uint16(data[i:i+2])`. -/
def readU16 (data : List Nat) (i : Nat) : Nat :=
  getB data i * 256 + getB data (i + 1)

/-- The two structural error values `ErrTooShort` and `ErrOutOfBounds`. -/
inductive Err
  | TooShort
  | OutOfBounds
deriving DecidableEq, Repr

/-- Decidable equality on `Except` results, so that concrete decoder
runs can be checked by `decide`. -/
instance {ε α : Type} [DecidableEq ε] [DecidableEq α] : DecidableEq (Except ε α) := fun x y =>
  match x, y with
  | .ok a, .ok b =>
    if h : a = b then isTrue (congrArg Except.ok h)
    else isFalse (fun hc => h (Except.ok.inj hc))
  | .error a, .error b =>
    if h : a = b then isTrue (congrArg Except.error h)
    else isFalse (fun hc => h (Except.error.inj hc))
  | .ok _, .error _ => isFalse (fun hc => Except.noConfusion hc)
  | .error _, .ok _ => isFalse (fun hc => Except.noConfusion hc)

/-! ## Format-code constants (file `sflow.go`) -/

def FlowSampleType : Nat := 1
def CounterSamplesType : Nat := 2
def FlowSampleExpandedType : Nat := 3
def CountersSampleExpandedType : Nat := 4

def SampledUnknownType : Nat := 0
def SampledHeaderType : Nat := 1
def SampledEthernetType : Nat := 2
def SampledIPV4Type : Nat := 3
def SampledIPV6Type : Nat := 4

def IfCountersType : Nat := 1
def EthernetCountersType : Nat := 2
def TokenringCountersType : Nat := 3
def VGCountersType : Nat := 4
def VlanCountersType : Nat := 5
def ProcessorType : Nat := 1001

/-! ## Flow-record decoders -/

structure SampledIPV4 where
  Length : Nat
  Protocol : Nat
  SrcIP : List Nat
  DstIP : List Nat
  SrcPort : Nat
  DstPort : Nat
  TCPFlags : Nat
  ToS : Nat
deriving DecidableEq, Repr

/-- The Go zero value `SampledIPV4{}` (`[4]byte` arrays are zero-filled). -/
def zeroIPv4 : SampledIPV4 :=
  { Length := 0, Protocol := 0, SrcIP := [0, 0, 0, 0], DstIP := [0, 0, 0, 0]
    SrcPort := 0, DstPort := 0, TCPFlags := 0, ToS := 0 }

/-- `func (si *SampledIPV4) Parse(data []byte) error`: fixed 32-byte
big-endian decode; every field is overwritten, so the receiver is
irrelevant and the result is a function of the bytes alone. -/
def SampledIPV4.Parse (data : List Nat) : Except Err SampledIPV4 :=
  if data.length < 32 then .error .TooShort
  else .ok
    { Length := readU32 data 0
      Protocol := readU32 data 4
      SrcIP := (data.drop 8).take 4
      DstIP := (data.drop 12).take 4
      SrcPort := readU32 data 16
      DstPort := readU32 data 20
      TCPFlags := readU32 data 24
      ToS := readU32 data 28 }

def SampledIPV4.FlowType (_ : SampledIPV4) : Nat :=
  SampledIPV4Type

/-- `func (si *SampledIPV4) ParseFromIPHeader(data []byte) error`:
mutates the receiver `si`, so the embedding takes the prior value and
returns the updated one.  `ihl := int((data[0] & 0xF) * 4)` — the `& 0xF`
is `% 16`; `(nibble) * 4 ≤ 60` so the `uint8` arithmetic cannot wrap. -/
def SampledIPV4.ParseFromIPHeader (si : SampledIPV4) (data : List Nat) :
    Except Err SampledIPV4 :=
  if data.length < 20 then .error .TooShort
  else if getB data 9 = 6 ∨ getB data 9 = 17 then
    if getB data 0 % 16 * 4 < 20 then .error .OutOfBounds
    else if data.length < getB data 0 % 16 * 4 + 4 then .error .OutOfBounds
    else .ok { si with
      SrcIP := (data.drop 12).take 4
      DstIP := (data.drop 16).take 4
      Protocol := getB data 9
      SrcPort := readU16 data (getB data 0 % 16 * 4)
      DstPort := readU16 data (getB data 0 % 16 * 4 + 2) }
  else .ok { si with
    SrcIP := (data.drop 12).take 4
    DstIP := (data.drop 16).take 4
    Protocol := getB data 9 }

structure SampledIPV6 where
  Length : Nat
  Protocol : Nat
  SrcIP : List Nat
  DstIP : List Nat
  SrcPort : Nat
  DstPort : Nat
  TCPFlags : Nat
  ToS : Nat
deriving DecidableEq, Repr

/-- `func (si *SampledIPV6) Parse(data []byte) error`.  The source reads
`copy(si.DstIP[:], data[12:40])`: Go's `copy` stops at the 16-byte
capacity of `DstIP`, so the destination address is taken from bytes
12..28 of the input (overlapping `SrcIP`), not bytes 24..40. -/
def SampledIPV6.Parse (data : List Nat) : Except Err SampledIPV6 :=
  if data.length < 56 then .error .TooShort
  else .ok
    { Length := readU32 data 0
      Protocol := readU32 data 4
      SrcIP := (data.drop 8).take 16
      DstIP := (data.drop 12).take 16
      SrcPort := readU32 data 40
      DstPort := readU32 data 44
      TCPFlags := readU32 data 48
      ToS := readU32 data 52 }

/-- `func (u *SampledIPV6) FlowType() uint32 { return SampledIPV4Type }`
— the source returns the IPv4 constant, not `SampledIPV6Type`. -/
def SampledIPV6.FlowType (_ : SampledIPV6) : Nat :=
  SampledIPV4Type

structure SampledUnknown where
  Typ : Nat
  Data : List Nat
deriving DecidableEq, Repr

/-- `func (u *SampledUnknown) Parse(data []byte) error`: copies the body
verbatim and never fails. -/
def SampledUnknown.ParseBody (u : SampledUnknown) (data : List Nat) :
    Except Err SampledUnknown :=
  .ok { u with Data := data }

def SampledUnknown.FlowType (u : SampledUnknown) : Nat :=
  u.Typ

structure SampledHeader where
  Protocol : Nat
  FrameLength : Nat
  PayloadRemoved : Nat
  Header : List Nat
deriving DecidableEq, Repr

/-- `func (sh *SampledHeader) Parse(data []byte) error`. -/
def SampledHeader.Parse (data : List Nat) : Except Err SampledHeader :=
  if data.length < 16 then .error .TooShort
  else if (data.length - 16) % 2 ^ 32 < readU32 data 12 then .error .OutOfBounds
  else .ok
    { Protocol := readU32 data 0
      FrameLength := readU32 data 4
      PayloadRemoved := readU32 data 8
      Header := (data.drop 16).take (readU32 data 12) }

def SampledHeader.FlowType (_ : SampledHeader) : Nat :=
  SampledHeaderType

/-- The tail of the `case 1:` branch of `SampledHeader.SampledIPv4`:
the redundant `if len(header) < ethernetHeaderSize` re-check followed by
`ParseFromIPHeader(header[ethernetHeaderSize:])` on a fresh receiver,
with a parse error mapped to `nil`. -/
def parseEthPayload (header : List Nat) (ethernetHeaderSize : Nat) :
    Option SampledIPV4 :=
  if header.length < ethernetHeaderSize then none
  else
    match zeroIPv4.ParseFromIPHeader (header.drop ethernetHeaderSize) with
    | .ok v => some v
    | .error _ => none

/-- `func (sh *SampledHeader) SampledIPv4() *SampledIPV4`: the derived,
best-effort IPv4 view (absent on any shortage, never an error). -/
def SampledHeader.SampledIPv4 (sh : SampledHeader) : Option SampledIPV4 :=
  if sh.Protocol = 1 then
    if sh.Header.length < 14 then none
    else if readU16 sh.Header 12 = 0x8100 then
      if sh.Header.length < 18 then none else parseEthPayload sh.Header 18
    else if readU16 sh.Header 12 = 0x88a8 then
      if sh.Header.length < 22 then none else parseEthPayload sh.Header 22
    else parseEthPayload sh.Header 14
  else if sh.Protocol = 11 then
    match zeroIPv4.ParseFromIPHeader sh.Header with
    | .ok v => some v
    | .error _ => none
  else none

/-- The `Flow` interface, as the closed set of values the dispatcher
`DataFormat.ParseFlow` can construct (its `switch` has no Ethernet case,
so `SampledEthernet` never appears here). -/
inductive Flow
  | sampledHeader (sh : SampledHeader)
  | sampledIPV4 (v : SampledIPV4)
  | sampledIPV6 (v : SampledIPV6)
  | sampledUnknown (u : SampledUnknown)
deriving DecidableEq, Repr

/-! ## Envelope reader and dispatchers -/

structure DataFormat where
  Format : Nat
  Length : Nat
deriving DecidableEq, Repr

/-- `func (h *DataFormat) Parse(data []byte) ([]byte, error)`: the
8-byte (format, length) envelope reader.  The bounds check is Go's
`uint32(len(data[8:])) < h.Length`, whose conversion to `uint32` keeps
only the low 32 bits of the remaining length. -/
def DataFormat.Parse (data : List Nat) : Except Err (DataFormat × List Nat) :=
  if data.length < 8 then .error .TooShort
  else if (data.length - 8) % 2 ^ 32 < readU32 data 4 then .error .OutOfBounds
  else .ok ({ Format := readU32 data 0, Length := readU32 data 4 }, data.drop 8)

/-- `func (df *DataFormat) ParseFlow(data []byte) (Flow, []byte, error)`:
slice the body to `df.Length` bytes and dispatch on `df.Format`
(default: `SampledUnknown`; the `flow == nil` branch of the source is
unreachable because the switch has a default). -/
def DataFormat.ParseFlow (df : DataFormat) (data : List Nat) :
    Except Err (Flow × List Nat) :=
  if data.length % 2 ^ 32 < df.Length then .error .OutOfBounds
  else if df.Format = SampledHeaderType then
    match SampledHeader.Parse (data.take df.Length) with
    | .ok sh => .ok (.sampledHeader sh, data.drop df.Length)
    | .error e => .error e
  else if df.Format = SampledIPV4Type then
    match SampledIPV4.Parse (data.take df.Length) with
    | .ok v => .ok (.sampledIPV4 v, data.drop df.Length)
    | .error e => .error e
  else if df.Format = SampledIPV6Type then
    match SampledIPV6.Parse (data.take df.Length) with
    | .ok v => .ok (.sampledIPV6 v, data.drop df.Length)
    | .error e => .error e
  else
    match SampledUnknown.ParseBody { Typ := df.Format, Data := [] } (data.take df.Length) with
    | .ok u => .ok (.sampledUnknown u, data.drop df.Length)
    | .error e => .error e

/-! ## Counter records

The typed counter decoders (`IfCounter`, `EthernetCounter`,
`TokenringCounters`, `VGCounters`, `VlanCounters`, `Processor`) and the
`CounterUnknown` fallback are referenced by `DataFormat.ParseCounter`
but their definitions are not part of the sources at hand. -/

/-- Modelled from the spec: `CounterUnknown` "mirrors the flow-record
fallback: format code + raw body, never fails". -/
structure CounterUnknown where
  Typ : Nat
  Data : List Nat
deriving DecidableEq, Repr

/-- Modelled from the spec: each typed counter decoder "decodes one
fixed-width counter block for its category"; the spec gives no field
layout, so each variant retains the raw block it decoded. -/
inductive Counter
  | counterUnknown (cu : CounterUnknown)
  | ifCounter (raw : List Nat)
  | ethernetCounter (raw : List Nat)
  | tokenringCounters (raw : List Nat)
  | vgCounters (raw : List Nat)
  | vlanCounters (raw : List Nat)
  | processor (raw : List Nat)
deriving DecidableEq, Repr

/-- `func (df *DataFormat) ParseCounter(data []byte) (Counter, []byte, error)`:
slice the body to `df.Length` bytes and dispatch on `df.Format`
(default: `CounterUnknown`, which captures the code and raw body). -/
def DataFormat.ParseCounter (df : DataFormat) (data : List Nat) :
    Except Err (Counter × List Nat) :=
  if data.length % 2 ^ 32 < df.Length then .error .OutOfBounds
  else if df.Format = IfCountersType then
    .ok (.ifCounter (data.take df.Length), data.drop df.Length)
  else if df.Format = EthernetCountersType then
    .ok (.ethernetCounter (data.take df.Length), data.drop df.Length)
  else if df.Format = TokenringCountersType then
    .ok (.tokenringCounters (data.take df.Length), data.drop df.Length)
  else if df.Format = VGCountersType then
    .ok (.vgCounters (data.take df.Length), data.drop df.Length)
  else if df.Format = VlanCountersType then
    .ok (.vlanCounters (data.take df.Length), data.drop df.Length)
  else if df.Format = ProcessorType then
    .ok (.processor (data.take df.Length), data.drop df.Length)
  else
    .ok (.counterUnknown { Typ := df.Format, Data := data.take df.Length }, data.drop df.Length)

/-- The `for i := uint32(0); i < records; i++` loop shared by
`CounterSamples.Parse` and `CountersSampleExpanded.Parse`: read one
envelope, dispatch to a counter decoder, append; any error aborts. -/
def parseCounterRecords : Nat → List Nat → Except Err (List Counter × List Nat)
  | 0, data => .ok ([], data)
  | n + 1, data =>
    match DataFormat.Parse data with
    | .error e => .error e
    | .ok (df, data1) =>
      match df.ParseCounter data1 with
      | .error e => .error e
      | .ok (c, data2) =>
        match parseCounterRecords n data2 with
        | .error e => .error e
        | .ok (cs, rest) => .ok (c :: cs, rest)

structure CounterSamples where
  SequenceNumber : Nat
  SourceId : Nat
  Records : List Counter
deriving DecidableEq, Repr

/-- `func (cs *CounterSamples) Parse(data []byte) error`. -/
def CounterSamples.Parse (data : List Nat) : Except Err CounterSamples :=
  if data.length < 12 then .error .TooShort
  else
    match parseCounterRecords (readU32 data 8) (data.drop 12) with
    | .error e => .error e
    | .ok (recs, _) => .ok
      { SequenceNumber := readU32 data 0
        SourceId := readU32 data 4
        Records := recs }

/-- `{type, index}` source identifier of the expanded variants. -/
structure DataSourceExpanded where
  Typ : Nat
  Index : Nat
deriving DecidableEq, Repr

structure CountersSampleExpanded where
  SequenceNumber : Nat
  SourceId : DataSourceExpanded
  Records : List Counter
deriving DecidableEq, Repr

/-- `func (cs *CountersSampleExpanded) Parse(data []byte) error`. -/
def CountersSampleExpanded.Parse (data : List Nat) : Except Err CountersSampleExpanded :=
  if data.length < 16 then .error .TooShort
  else
    match parseCounterRecords (readU32 data 12) (data.drop 16) with
    | .error e => .error e
    | .ok (recs, _) => .ok
      { SequenceNumber := readU32 data 0
        SourceId := { Typ := readU32 data 4, Index := readU32 data 8 }
        Records := recs }

/-! ## Flow samples

`FlowSample` and `FlowSampleExpanded` are constructed by
`DataFormat.ParseSample` but their definitions are not part of the
sources at hand. -/

/-- The record loop of the flow-sample aggregators, modelled from the
spec: "analogous structure for flow records, dispatching through the
flow-record table". -/
def parseFlowRecords : Nat → List Nat → Except Err (List Flow × List Nat)
  | 0, data => .ok ([], data)
  | n + 1, data =>
    match DataFormat.Parse data with
    | .error e => .error e
    | .ok (df, data1) =>
      match df.ParseFlow data1 with
      | .error e => .error e
      | .ok (f, data2) =>
        match parseFlowRecords n data2 with
        | .error e => .error e
        | .ok (fs, rest) => .ok (f :: fs, rest)

/-- Modelled from the spec: `FlowSample` holds "a sequence number, a
source identifier (plain index), and an ordered sequence of records". -/
structure FlowSample where
  SequenceNumber : Nat
  SourceId : Nat
  Records : List Flow
deriving DecidableEq, Repr

/-- Modelled from the spec: `FlowSample` decodes
`seq:u32 sourceId:u32 recordCount:u32` then `recordCount` flow records,
analogous to `CounterSamples.Parse`. -/
def FlowSample.Parse (data : List Nat) : Except Err FlowSample :=
  if data.length < 12 then .error .TooShort
  else
    match parseFlowRecords (readU32 data 8) (data.drop 12) with
    | .error e => .error e
    | .ok (recs, _) => .ok
      { SequenceNumber := readU32 data 0
        SourceId := readU32 data 4
        Records := recs }

/-- Modelled from the spec: `FlowSampleExpanded` is identical to
`FlowSample` "except source id is a {type, index} pair occupying 8 bytes
instead of 4". -/
structure FlowSampleExpanded where
  SequenceNumber : Nat
  SourceId : DataSourceExpanded
  Records : List Flow
deriving DecidableEq, Repr

/-- Modelled from the spec: 16-byte prefix then `recordCount` flow
records. -/
def FlowSampleExpanded.Parse (data : List Nat) : Except Err FlowSampleExpanded :=
  if data.length < 16 then .error .TooShort
  else
    match parseFlowRecords (readU32 data 12) (data.drop 16) with
    | .error e => .error e
    | .ok (recs, _) => .ok
      { SequenceNumber := readU32 data 0
        SourceId := { Typ := readU32 data 4, Index := readU32 data 8 }
        Records := recs }

/-- The `Sample` interface, as the closed set of sample variants of the
data model (`CountersSampleExpanded` included, although the sample
dispatcher never constructs it). -/
inductive Sample
  | counterSamples (cs : CounterSamples)
  | flowSample (fs : FlowSample)
  | flowSampleExpanded (fse : FlowSampleExpanded)
  | countersSampleExpanded (cse : CountersSampleExpanded)
deriving DecidableEq, Repr

/-- `func (df *DataFormat) ParseSample(data []byte) (Sample, []byte, error)`:
the sample-level dispatcher.  Its `switch` recognizes only
`CounterSamplesType`, `FlowSampleType` and `FlowSampleExpandedType`;
for any other format the `sample == nil` branch returns no object and
the buffer already advanced past the body. -/
def DataFormat.ParseSample (df : DataFormat) (data : List Nat) :
    Except Err (Option Sample × List Nat) :=
  if data.length % 2 ^ 32 < df.Length then .error .OutOfBounds
  else if df.Format = CounterSamplesType then
    match CounterSamples.Parse (data.take df.Length) with
    | .ok cs => .ok (some (.counterSamples cs), data.drop df.Length)
    | .error e => .error e
  else if df.Format = FlowSampleType then
    match FlowSample.Parse (data.take df.Length) with
    | .ok fs => .ok (some (.flowSample fs), data.drop df.Length)
    | .error e => .error e
  else if df.Format = FlowSampleExpandedType then
    match FlowSampleExpanded.Parse (data.take df.Length) with
    | .ok fse => .ok (some (.flowSampleExpanded fse), data.drop df.Length)
    | .error e => .error e
  else .ok (none, data.drop df.Length)

/-! ## Datagram header and top-level driver -/

structure Header where
  Version : Nat
  AddressType : Nat
  AgentAddress : List Nat
  SubAgentID : Nat
  SequenceNumber : Nat
  SysUptime : Nat
  NumSamples : Nat
deriving DecidableEq, Repr

/-- `func (h *Header) Parse(data []byte) ([]byte, error)`: the fixed
28-byte datagram header. -/
def Header.Parse (data : List Nat) : Except Err (Header × List Nat) :=
  if data.length < 28 then .error .TooShort
  else .ok
    ({ Version := readU32 data 0
       AddressType := readU32 data 4
       AgentAddress := (data.drop 8).take 4
       SubAgentID := readU32 data 12
       SequenceNumber := readU32 data 16
       SysUptime := readU32 data 20
       NumSamples := readU32 data 24 }, data.drop 28)

/-- The loop of `Header.ParseSamples`, with the Go accumulator made
explicit.  Each iteration appends `df.ParseSample`'s first return value
— `nil` for a skipped format, hence `Option Sample` — and any error
returns the pair `(nil, err)`, dropping the accumulated slice exactly as
`return nil, err` does. -/
def parseSamplesGo : Nat → List Nat → List (Option Sample) →
    Option (List (Option Sample)) × Option Err
  | 0, _, samples => (some samples, none)
  | n + 1, data, samples =>
    match DataFormat.Parse data with
    | .error e => (none, some e)
    | .ok (df, data1) =>
      match df.ParseSample data1 with
      | .error e => (none, some e)
      | .ok (s, data2) => parseSamplesGo n data2 (samples ++ [s])

/-- `func (h *Header) ParseSamples(data []byte) ([]Sample, error)`. -/
def Header.ParseSamples (h : Header) (data : List Nat) :
    Option (List (Option Sample)) × Option Err :=
  parseSamplesGo h.NumSamples data []

/-! ## Wire-layout encoder (for the round-trip property)

The repository has no encoder; this one is written from the spec's wire
layout `length:u32 protocol:u32 srcIP:4B dstIP:4B srcPort:u32 dstPort:u32
tcpFlags:u32 tos:u32`, all big-endian. -/

/-- The four big-endian bytes of a 32-bit value. -/
def u32bytes (n : Nat) : List Nat :=
  [n / 2 ^ 24 % 256, n / 2 ^ 16 % 256, n / 2 ^ 8 % 256, n % 256]

/-- Encode a `SampledIPV4` into its 32-byte big-endian wire layout. -/
def encodeSampledIPV4 (v : SampledIPV4) : List Nat :=
  u32bytes v.Length ++ u32bytes v.Protocol ++ v.SrcIP ++ v.DstIP ++
    u32bytes v.SrcPort ++ u32bytes v.DstPort ++ u32bytes v.TCPFlags ++ u32bytes v.ToS

/-! ## Claims -/

/-- C1: on the 56-byte input whose byte at offset `i` is `i`, the claim
predicts `DstIP` = bytes 24..40, i.e. `[24, …, 39]`.  The source's
`copy(si.DstIP[:], data[12:40])` stops at the 16-byte capacity of
`DstIP`, so the decoder actually yields bytes 12..28, i.e. `[12, …, 27]`
— the decode succeeds but the destination address is misaligned,
overlapping the source address. -/
theorem c1_ipv6_dstIP_misaligned :
    (Sflow.SampledIPV6.Parse (List.range 56)).map Sflow.SampledIPV6.DstIP =
      .ok [12, 13, 14, 15, 16, 17, 18, 19, 20, 21, 22, 23, 24, 25, 26, 27] ∧
    ((List.range 56).drop 24).take 16 =
      [24, 25, 26, 27, 28, 29, 30, 31, 32, 33, 34, 35, 36, 37, 38, 39] ∧
    [12, 13, 14, 15, 16, 17, 18, 19, 20, 21, 22, 23, 24, 25, 26, 27] ≠
      [24, 25, 26, 27, 28, 29, 30, 31, 32, 33, 34, 35, 36, 37, 38, 39] := by
  decide

/-- C8: encoding the literal `SampledIPv4{length=60, protocol=6,
srcIP=10.0.0.1, dstIP=10.0.0.2, srcPort=443, dstPort=51000,
tcpFlags=0x18, tos=0}` into its 32-byte big-endian wire layout and
decoding it with `SampledIPV4.Parse` reproduces the same field values. -/
theorem c8_roundtrip :
    Sflow.SampledIPV4.Parse (Sflow.encodeSampledIPV4
      { Length := 60, Protocol := 6, SrcIP := [10, 0, 0, 1], DstIP := [10, 0, 0, 2]
        SrcPort := 443, DstPort := 51000, TCPFlags := 0x18, ToS := 0 }) =
    .ok { Length := 60, Protocol := 6, SrcIP := [10, 0, 0, 1], DstIP := [10, 0, 0, 2]
          SrcPort := 443, DstPort := 51000, TCPFlags := 0x18, ToS := 0 } := by
  decide

/-- C10 counterexample: the claim states that `SampledIPV6.FlowType`
returns 4 (calling 4 the SampledIPv4 code and 5 the SampledIPv6 code).
On a concrete value it returns 3: the constants are
`SampledIPV4Type = 3` and `SampledIPV6Type = 4`, so the claim's numbers
are off by one. -/
theorem c10_counterexample :
    Sflow.SampledIPV6.FlowType { Length := 0, Protocol := 0, SrcIP := [], DstIP := []
                                 SrcPort := 0, DstPort := 0, TCPFlags := 0, ToS := 0 } = 3 ∧
    ¬ Sflow.SampledIPV6.FlowType { Length := 0, Protocol := 0, SrcIP := [], DstIP := []
                                   SrcPort := 0, DstPort := 0, TCPFlags := 0, ToS := 0 } = 4 := by
  decide

/-- C10 (amended): `SampledIPV6.FlowType` returns `SampledIPV4Type`,
whose value is 3 (not 4) — identical to what `SampledIPV4.FlowType`
returns — while `SampledIPV6Type` is 4 (not 5); so the public type tag
does not distinguish the two variants. -/
theorem c10_flowType_shared_tag :
    (∀ v : Sflow.SampledIPV6, v.FlowType = Sflow.SampledIPV4Type) ∧
    (∀ w : Sflow.SampledIPV4, w.FlowType = Sflow.SampledIPV4Type) ∧
    Sflow.SampledIPV4Type = 3 ∧ Sflow.SampledIPV6Type = 4 ∧
    Sflow.SampledIPV4Type ≠ Sflow.SampledIPV6Type :=
  ⟨fun _ => rfl, fun _ => rfl, rfl, rfl, by decide⟩

/-- C3 counterexample: no invocation of the sample-level dispatcher ever
produces a `CountersSampleExpanded` sample — its `switch` has no case
for `CountersSampleExpandedType`, so the claimed datagram cannot
exist. -/
theorem c3_counterexample :
    ¬ ∃ (df : Sflow.DataFormat) (data : List Nat)
        (cse : Sflow.CountersSampleExpanded) (rest : List Nat),
      df.ParseSample data = .ok (some (.countersSampleExpanded cse), rest) := by
  rintro ⟨df, data, cse, rest, h⟩
  unfold Sflow.DataFormat.ParseSample at h
  split at h
  · exact absurd h (by simp)
  · split at h
    · split at h <;> simp_all
    · split at h
      · split at h <;> simp_all
      · split at h
        · split at h <;> simp_all
        · simp_all

/-- The 28-byte body used for C3: sequence number 7, source id
`{type 1, index 2}`, record count 1, then one counter record with the
unrecognized format code 9999 and the 4-byte body `[1, 2, 3, 4]`. -/
def c3Body : List Nat :=
  [0, 0, 0, 7, 0, 0, 0, 1, 0, 0, 0, 2, 0, 0, 0, 1,
   0, 0, 39, 15, 0, 0, 0, 4, 1, 2, 3, 4]

/-- C3 (amended): `CountersSampleExpanded.Parse`, applied directly to a
body in the documented layout, does produce the sequence number, the
`{type, index}` source id and the declared number of counter records;
but the sample-level dispatcher does not recognize
`CountersSampleExpandedType`, so the same body inside a sample envelope
yields no sample object (the buffer just advances past it). -/
theorem c3_expanded_counters_not_dispatched :
    Sflow.CountersSampleExpanded.Parse Sflow.c3Body =
      .ok { SequenceNumber := 7, SourceId := { Typ := 1, Index := 2 }
            Records := [.counterUnknown { Typ := 9999, Data := [1, 2, 3, 4] }] } ∧
    Sflow.DataFormat.ParseSample
        { Format := Sflow.CountersSampleExpandedType, Length := 28 } Sflow.c3Body =
      .ok (none, []) := by
  decide

/-- C2: whenever the envelope reader accepts a buffer, a format code
that is not one of the recognized flow codes (sampled-header 1,
sampled-ipv4 3, sampled-ipv6 4) makes `ParseFlow` return, without error,
a `SampledUnknown` carrying that code and a byte-for-byte copy of the
envelope's body; and a format code that is not one of the recognized
sample codes (flow-sample 1, counter-samples 2, flow-sample-expanded 3)
makes `ParseSample` produce no sample object while still advancing past
exactly the declared body length. -/
theorem c2_unknown_code_policy :
    ∀ (data : List Nat) (df : Sflow.DataFormat) (rest : List Nat),
      Sflow.DataFormat.Parse data = .ok (df, rest) →
      (df.Format ≠ Sflow.SampledHeaderType → df.Format ≠ Sflow.SampledIPV4Type →
        df.Format ≠ Sflow.SampledIPV6Type →
        df.ParseFlow rest =
          .ok (.sampledUnknown { Typ := df.Format, Data := rest.take df.Length },
               rest.drop df.Length)) ∧
      (df.Format ≠ Sflow.FlowSampleType → df.Format ≠ Sflow.CounterSamplesType →
        df.Format ≠ Sflow.FlowSampleExpandedType →
        df.ParseSample rest = .ok (none, rest.drop df.Length)) := by
  intro data df rest h
  unfold Sflow.DataFormat.Parse at h
  split at h
  · exact absurd h (by simp)
  split at h
  · exact absurd h (by simp)
  rename_i h8 hg
  simp only [Except.ok.injEq, Prod.mk.injEq] at h
  obtain ⟨hdf, hrest⟩ := h
  subst hdf
  subst hrest
  constructor
  · intro h1 h2 h3
    unfold Sflow.DataFormat.ParseFlow Sflow.SampledUnknown.ParseBody
    rw [List.length_drop]
    rw [if_neg hg, if_neg h1, if_neg h2, if_neg h3]
  · intro h1 h2 h3
    unfold Sflow.DataFormat.ParseSample
    rw [List.length_drop]
    rw [if_neg hg, if_neg h2, if_neg h1, if_neg h3]

/-- C2 witness: a concrete envelope with the unrecognized code 999 and a
2-byte body `[9, 9]`. -/
theorem c2_unknown_code_policy_witness :
    Sflow.DataFormat.ParseFlow { Format := 999, Length := 2 } [9, 9] =
      .ok (.sampledUnknown { Typ := 999, Data := [9, 9] }, []) ∧
    Sflow.DataFormat.ParseSample { Format := 999, Length := 2 } [9, 9] = .ok (none, []) := by
  have h := c2_unknown_code_policy [0, 0, 3, 231, 0, 0, 0, 2, 9, 9]
    { Format := 999, Length := 2 } [9, 9] (by decide)
  exact ⟨(h.1 (by decide) (by decide) (by decide)).trans (by decide),
         (h.2 (by decide) (by decide) (by decide)).trans (by decide)⟩

/-- A buffer whose remainder after the 8-byte envelope prefix is exactly
2^32 bytes long, with declared length 1. -/
def bigBuf : List Nat :=
  0 :: 0 :: 0 :: 0 :: 0 :: 0 :: 0 :: 1 :: List.replicate (2 ^ 32) 0

/-- C6 counterexample: the claim says `DataFormat.Parse` fails with
`OutOfBounds` exactly when the declared length exceeds the bytes
remaining after the prefix.  On a buffer with 2^32 remaining bytes and
declared length 1 the remaining count does not exceed the declared
length, yet the decoder fails: Go's `uint32(len(data[8:]))` keeps only
the low 32 bits of the remaining length, which are 0 here. -/
theorem c6_counterexample :
    Sflow.DataFormat.Parse Sflow.bigBuf = .error .OutOfBounds ∧
    Sflow.readU32 Sflow.bigBuf 4 = 1 ∧
    Sflow.bigBuf.length - 8 = 2 ^ 32 := by
  have hlen : Sflow.bigBuf.length = 2 ^ 32 + 8 := by
    unfold Sflow.bigBuf
    rw [List.length_cons, List.length_cons, List.length_cons, List.length_cons,
        List.length_cons, List.length_cons, List.length_cons, List.length_cons,
        List.length_replicate]
  have h1 : Sflow.readU32 Sflow.bigBuf 4 = 1 := rfl
  refine ⟨?_, h1, by omega⟩
  unfold Sflow.DataFormat.Parse
  rw [hlen, h1]
  norm_num

/-- C6 (amended): for buffers shorter than 2^32 + 8 bytes — so that the
source's `uint32` conversion of the remaining length is lossless — the
envelope reader fails with `TooShort` exactly when fewer than 8 bytes
remain, fails with `OutOfBounds` exactly when the declared length
exceeds the bytes remaining after the 8-byte prefix, and on success
returns the format/length pair and the buffer positioned immediately
after the prefix. -/
theorem c6_envelope_reader :
    ∀ data : List Nat, data.length < 2 ^ 32 + 8 →
      (Sflow.DataFormat.Parse data = .error .TooShort ↔ data.length < 8) ∧
      (Sflow.DataFormat.Parse data = .error .OutOfBounds ↔
        8 ≤ data.length ∧ data.length - 8 < Sflow.readU32 data 4) ∧
      (8 ≤ data.length → Sflow.readU32 data 4 ≤ data.length - 8 →
        Sflow.DataFormat.Parse data =
          .ok ({ Format := Sflow.readU32 data 0, Length := Sflow.readU32 data 4 },
               data.drop 8)) := by
  intro data hsmall
  have hmod : (data.length - 8) % 2 ^ 32 = data.length - 8 := Nat.mod_eq_of_lt (by omega)
  unfold Sflow.DataFormat.Parse
  rw [hmod]
  by_cases h8 : data.length < 8
  · rw [if_pos h8]
    refine ⟨by simp [h8], ?_, fun h8' _ => by omega⟩
    constructor
    · intro hc
      exact absurd hc (by simp)
    · intro hc
      omega
  · rw [if_neg h8]
    by_cases hg : data.length - 8 < Sflow.readU32 data 4
    · rw [if_pos hg]
      refine ⟨?_, ?_, fun _ hle => by omega⟩
      · constructor
        · intro hc
          exact absurd hc (by simp)
        · intro hc
          omega
      · simp [hg]
        omega
    · rw [if_neg hg]
      refine ⟨?_, ?_, fun _ _ => rfl⟩
      · constructor
        · intro hc
          exact absurd hc (by simp)
        · intro hc
          omega
      · constructor
        · intro hc
          exact absurd hc (by simp)
        · intro hc
          omega

/-- C6 witness: concrete runs of the envelope reader through each of the
three clauses. -/
theorem c6_envelope_reader_witness :
    Sflow.DataFormat.Parse [0, 0, 0, 7, 0, 0, 0, 0] =
      .ok ({ Format := 7, Length := 0 }, []) ∧
    Sflow.DataFormat.Parse [1, 2, 3] = .error .TooShort ∧
    Sflow.DataFormat.Parse [0, 0, 0, 0, 0, 0, 0, 5] = .error .OutOfBounds := by
  have h1 := c6_envelope_reader [0, 0, 0, 7, 0, 0, 0, 0] (by norm_num)
  have h2 := c6_envelope_reader [1, 2, 3] (by norm_num)
  have h3 := c6_envelope_reader [0, 0, 0, 0, 0, 0, 0, 5] (by norm_num)
  exact ⟨(h1.2.2 (by decide) (by decide)).trans (by decide),
         h2.1.mpr (by decide),
         h3.2.1.mpr (by decide)⟩

/-- C4 counterexample: the claim says `ParseFromIPHeader` fails with
`OutOfBounds` whenever the input is shorter than 20 bytes — the source
returns `TooShort` there — and that for a TCP packet the only other
failure is an input shorter than IHL + 4: on a 24-byte TCP input with
IHL nibble 1 (so IHL = 4 and IHL + 4 = 8 ≤ 24) the claim predicts ports
read at offsets 4 and 6, but the source's additional `ihl < 20` check
fails with `OutOfBounds`. -/
theorem c4_counterexample :
    Sflow.zeroIPv4.ParseFromIPHeader (List.replicate 19 0) = .error .TooShort ∧
    Sflow.zeroIPv4.ParseFromIPHeader
        (65 :: 0 :: 0 :: 0 :: 0 :: 0 :: 0 :: 0 :: 0 :: 6 :: List.replicate 14 0) =
      .error .OutOfBounds := by
  decide

/-- C4 (amended): `ParseFromIPHeader` (on the zero-valued receiver)
copies the addresses from offsets 12–16 and 16–20 and the protocol from
byte 9; it fails with `TooShort` (not `OutOfBounds`) when the input is
shorter than 20 bytes; when the protocol is TCP (6) or UDP (17) it fails
with `OutOfBounds` when IHL < 20 or when the input is shorter than
IHL + 4, and otherwise reads the 16-bit ports at offsets IHL and
IHL + 2; for every other protocol the ports are left at zero and no
error is returned. -/
theorem c4_parseFromIPHeader :
    ∀ data : List Nat,
      (data.length < 20 →
        Sflow.zeroIPv4.ParseFromIPHeader data = .error .TooShort) ∧
      (20 ≤ data.length → Sflow.getB data 9 ≠ 6 → Sflow.getB data 9 ≠ 17 →
        Sflow.zeroIPv4.ParseFromIPHeader data = .ok { Sflow.zeroIPv4 with
          SrcIP := (data.drop 12).take 4, DstIP := (data.drop 16).take 4
          Protocol := Sflow.getB data 9 }) ∧
      (20 ≤ data.length → (Sflow.getB data 9 = 6 ∨ Sflow.getB data 9 = 17) →
        Sflow.getB data 0 % 16 * 4 < 20 →
        Sflow.zeroIPv4.ParseFromIPHeader data = .error .OutOfBounds) ∧
      (20 ≤ data.length → (Sflow.getB data 9 = 6 ∨ Sflow.getB data 9 = 17) →
        20 ≤ Sflow.getB data 0 % 16 * 4 →
        data.length < Sflow.getB data 0 % 16 * 4 + 4 →
        Sflow.zeroIPv4.ParseFromIPHeader data = .error .OutOfBounds) ∧
      (20 ≤ data.length → (Sflow.getB data 9 = 6 ∨ Sflow.getB data 9 = 17) →
        20 ≤ Sflow.getB data 0 % 16 * 4 →
        Sflow.getB data 0 % 16 * 4 + 4 ≤ data.length →
        Sflow.zeroIPv4.ParseFromIPHeader data = .ok { Sflow.zeroIPv4 with
          SrcIP := (data.drop 12).take 4, DstIP := (data.drop 16).take 4
          Protocol := Sflow.getB data 9
          SrcPort := Sflow.readU16 data (Sflow.getB data 0 % 16 * 4)
          DstPort := Sflow.readU16 data (Sflow.getB data 0 % 16 * 4 + 2) }) := by
  intro data
  unfold Sflow.SampledIPV4.ParseFromIPHeader
  refine ⟨fun h => by rw [if_pos h], ?_, ?_, ?_, ?_⟩
  · intro h20 h6 h17
    rw [if_neg (by omega), if_neg (by exact fun hc => hc.elim h6 h17)]
  · intro h20 hp hihl
    rw [if_neg (by omega), if_pos hp, if_pos hihl]
  · intro h20 hp hihl hlen
    rw [if_neg (by omega), if_pos hp, if_neg (by omega), if_pos hlen]
  · intro h20 hp hihl hlen
    rw [if_neg (by omega), if_pos hp, if_neg (by omega), if_neg (by omega)]

/-- C4 witness: the spec's own example — a standard 20-byte IPv4 header
(IHL = 5) with protocol TCP and port bytes `01 BB C7 38` at offsets
20–24 yields ports 443 and 51000 read at offsets 20 and 22. -/
theorem c4_parseFromIPHeader_witness :
    Sflow.zeroIPv4.ParseFromIPHeader
        [69, 0, 0, 0, 0, 0, 0, 0, 0, 6, 0, 0, 10, 0, 0, 1, 10, 0, 0, 2, 1, 187, 199, 56] =
      .ok { Sflow.zeroIPv4 with
        SrcIP := [10, 0, 0, 1], DstIP := [10, 0, 0, 2], Protocol := 6
        SrcPort := 443, DstPort := 51000 } := by
  have h := (c4_parseFromIPHeader
    [69, 0, 0, 0, 0, 0, 0, 0, 0, 6, 0, 0, 10, 0, 0, 1, 10, 0, 0, 2, 1, 187, 199, 56]).2.2.2.2
    (by decide) (by decide) (by decide) (by decide)
  exact h.trans (by decide)

/-- C5: the derived IPv4 view of `SampledHeader`.  With protocol id 1
the IPv4 header is parsed from the captured bytes at offset 14, or 18
when the 16-bit value at bytes 12–14 is 0x8100 (802.1Q), or 22 when it
is 0x88a8 (QinQ); with protocol id 11 the captured bytes are parsed
directly; for any other protocol id, or when too few bytes remain at any
step (including a failing `ParseFromIPHeader`, folded in by
`Except.toOption`), the result is absent rather than an error. -/
theorem c5_sampledIPv4_view :
    ∀ sh : Sflow.SampledHeader,
      (sh.Protocol = 1 → sh.Header.length < 14 → sh.SampledIPv4 = none) ∧
      (sh.Protocol = 1 → 14 ≤ sh.Header.length → Sflow.readU16 sh.Header 12 = 0x8100 →
        sh.Header.length < 18 → sh.SampledIPv4 = none) ∧
      (sh.Protocol = 1 → 14 ≤ sh.Header.length → Sflow.readU16 sh.Header 12 = 0x8100 →
        18 ≤ sh.Header.length →
        sh.SampledIPv4 = (Sflow.zeroIPv4.ParseFromIPHeader (sh.Header.drop 18)).toOption) ∧
      (sh.Protocol = 1 → 14 ≤ sh.Header.length → Sflow.readU16 sh.Header 12 = 0x88a8 →
        sh.Header.length < 22 → sh.SampledIPv4 = none) ∧
      (sh.Protocol = 1 → 14 ≤ sh.Header.length → Sflow.readU16 sh.Header 12 = 0x88a8 →
        22 ≤ sh.Header.length →
        sh.SampledIPv4 = (Sflow.zeroIPv4.ParseFromIPHeader (sh.Header.drop 22)).toOption) ∧
      (sh.Protocol = 1 → 14 ≤ sh.Header.length → Sflow.readU16 sh.Header 12 ≠ 0x8100 →
        Sflow.readU16 sh.Header 12 ≠ 0x88a8 →
        sh.SampledIPv4 = (Sflow.zeroIPv4.ParseFromIPHeader (sh.Header.drop 14)).toOption) ∧
      (sh.Protocol = 11 →
        sh.SampledIPv4 = (Sflow.zeroIPv4.ParseFromIPHeader sh.Header).toOption) ∧
      (sh.Protocol ≠ 1 → sh.Protocol ≠ 11 → sh.SampledIPv4 = none) := by
  intro sh
  unfold Sflow.SampledHeader.SampledIPv4 Sflow.parseEthPayload
  refine ⟨?_, ?_, ?_, ?_, ?_, ?_, ?_, ?_⟩
  · intro h1 hlt
    rw [if_pos h1, if_pos hlt]
  · intro h1 hge het hlt
    rw [if_pos h1, if_neg (by omega), if_pos het, if_pos hlt]
  · intro h1 hge het hge18
    rw [if_pos h1, if_neg (by omega), if_pos het, if_neg (by omega), if_neg (by omega)]
    cases hp : Sflow.zeroIPv4.ParseFromIPHeader (sh.Header.drop 18) <;>
      simp [Except.toOption, hp]
  · intro h1 hge het hlt
    rw [if_pos h1, if_neg (by omega), if_neg (by omega), if_pos het, if_pos hlt]
  · intro h1 hge het hge22
    rw [if_pos h1, if_neg (by omega), if_neg (by omega), if_pos het,
        if_neg (by omega), if_neg (by omega)]
    cases hp : Sflow.zeroIPv4.ParseFromIPHeader (sh.Header.drop 22) <;>
      simp [Except.toOption, hp]
  · intro h1 hge het1 het2
    rw [if_pos h1, if_neg (by omega), if_neg het1, if_neg het2, if_neg (by omega)]
    cases hp : Sflow.zeroIPv4.ParseFromIPHeader (sh.Header.drop 14) <;>
      simp [Except.toOption, hp]
  · intro h11
    rw [if_neg (by omega), if_pos h11]
    cases hp : Sflow.zeroIPv4.ParseFromIPHeader sh.Header <;>
      simp [Except.toOption, hp]
  · intro h1 h11
    rw [if_neg h1, if_neg h11]

/-- C5 witness: the spec's example — a 14-byte Ethernet header whose
ethertype bytes are `81 00`, a 4-byte 802.1Q tag, then a raw IPv4 TCP
header; the derived addresses are the ones found 18 bytes in. -/
theorem c5_sampledIPv4_view_witness :
    Sflow.SampledHeader.SampledIPv4
      { Protocol := 1, FrameLength := 0, PayloadRemoved := 0
        Header := [0, 0, 0, 0, 0, 0, 0, 0, 0, 0, 0, 0, 129, 0, 0, 0, 0, 0,
                   69, 0, 0, 0, 0, 0, 0, 0, 0, 6, 0, 0,
                   10, 0, 0, 1, 10, 0, 0, 2, 1, 187, 199, 56] } =
      some { Sflow.zeroIPv4 with
        SrcIP := [10, 0, 0, 1], DstIP := [10, 0, 0, 2], Protocol := 6
        SrcPort := 443, DstPort := 51000 } := by
  have h := (c5_sampledIPv4_view
    { Protocol := 1, FrameLength := 0, PayloadRemoved := 0
      Header := [0, 0, 0, 0, 0, 0, 0, 0, 0, 0, 0, 0, 129, 0, 0, 0, 0, 0,
                 69, 0, 0, 0, 0, 0, 0, 0, 0, 6, 0, 0,
                 10, 0, 0, 1, 10, 0, 0, 2, 1, 187, 199, 56] }).2.2.1
    rfl (by decide) (by decide) (by decide)
  exact h.trans (by decide)

/-- If the sample-level dispatcher succeeds, its remainder is the input
positioned exactly past the declared body length. -/
theorem parseSample_ok_drop (df : Sflow.DataFormat) (d : List Nat)
    (s : Option Sflow.Sample) (r2 : List Nat) :
    df.ParseSample d = .ok (s, r2) → r2 = d.drop df.Length := by
  intro h
  unfold Sflow.DataFormat.ParseSample at h
  split at h
  · exact absurd h (by simp)
  · split at h
    · split at h <;> simp_all
    · split at h
      · split at h <;> simp_all
      · split at h
        · split at h <;> simp_all
        · simp_all

/-- If the flow-record dispatcher succeeds, its remainder is the input
positioned exactly past the declared body length. -/
theorem parseFlow_ok_drop (df : Sflow.DataFormat) (d : List Nat)
    (f : Sflow.Flow) (r2 : List Nat) :
    df.ParseFlow d = .ok (f, r2) → r2 = d.drop df.Length := by
  intro h
  unfold Sflow.DataFormat.ParseFlow at h
  split at h
  · exact absurd h (by simp)
  · split at h
    · split at h <;> simp_all
    · split at h
      · split at h <;> simp_all
      · split at h
        · split at h <;> simp_all
        · unfold Sflow.SampledUnknown.ParseBody at h
          simp_all

/-- If the counter-record dispatcher succeeds, its remainder is the
input positioned exactly past the declared body length. -/
theorem parseCounter_ok_drop (df : Sflow.DataFormat) (d : List Nat)
    (c : Sflow.Counter) (r2 : List Nat) :
    df.ParseCounter d = .ok (c, r2) → r2 = d.drop df.Length := by
  intro h
  unfold Sflow.DataFormat.ParseCounter at h
  split at h
  · exact absurd h (by simp)
  · split at h
    · simp_all
    · split at h
      · simp_all
      · split at h
        · simp_all
        · split at h
          · simp_all
          · split at h
            · simp_all
            · split at h <;> simp_all

/-- C9: each successful iteration of the decode loops consumes exactly
the 8-byte envelope prefix plus the envelope's declared body length —
at least 8 bytes and never more than the bytes available (the declared
length is bounded by the remainder), so the unconsumed remainder
strictly decreases at every level (sample, flow-record and
counter-record dispatch alike). -/
theorem c9_step_consumption :
    ∀ (data : List Nat) (df : Sflow.DataFormat) (rest : List Nat),
      Sflow.DataFormat.Parse data = .ok (df, rest) →
      rest.length + 8 = data.length ∧
      df.Length ≤ rest.length ∧
      (∀ (s : Option Sflow.Sample) (rest2 : List Nat),
        df.ParseSample rest = .ok (s, rest2) →
        rest2.length + df.Length = rest.length ∧
        rest2.length + 8 ≤ data.length ∧ rest2.length < data.length) ∧
      (∀ (f : Sflow.Flow) (rest2 : List Nat),
        df.ParseFlow rest = .ok (f, rest2) →
        rest2.length + df.Length = rest.length ∧ rest2.length < rest.length + 8) ∧
      (∀ (c : Sflow.Counter) (rest2 : List Nat),
        df.ParseCounter rest = .ok (c, rest2) →
        rest2.length + df.Length = rest.length ∧ rest2.length < rest.length + 8) := by
  intro data df rest h
  unfold Sflow.DataFormat.Parse at h
  split at h
  · exact absurd h (by simp)
  split at h
  · exact absurd h (by simp)
  rename_i h8 hg
  simp only [Except.ok.injEq, Prod.mk.injEq] at h
  obtain ⟨hdf, hrest⟩ := h
  subst hrest
  have hLen : df.Length = Sflow.readU32 data 4 := by rw [← hdf]
  have hlen8 : (data.drop 8).length = data.length - 8 := List.length_drop 8 data
  have hL : df.Length ≤ (data.drop 8).length := by
    rw [hLen, hlen8]
    exact (le_of_not_lt hg).trans (Nat.mod_le _ _)
  refine ⟨by omega, hL, ?_, ?_, ?_⟩
  · intro s rest2 hps
    have hr := parseSample_ok_drop _ _ _ _ hps
    subst hr
    rw [List.length_drop]
    constructor
    · omega
    constructor <;> omega
  · intro f rest2 hpf
    have hr := parseFlow_ok_drop _ _ _ _ hpf
    subst hr
    rw [List.length_drop]
    constructor <;> omega
  · intro c rest2 hpc
    have hr := parseCounter_ok_drop _ _ _ _ hpc
    subst hr
    rw [List.length_drop]
    constructor <;> omega

/-- C9 witness: a concrete 12-byte buffer — an envelope with format 9
(skipped) and a 4-byte body — consumes 8 + 4 bytes. -/
theorem c9_step_consumption_witness :
    ([5, 6, 7, 8] : List Nat).length + 8 =
      ([0, 0, 0, 9, 0, 0, 0, 4, 5, 6, 7, 8] : List Nat).length ∧
    ([] : List Nat).length + 4 = ([5, 6, 7, 8] : List Nat).length := by
  have h := c9_step_consumption [0, 0, 0, 9, 0, 0, 0, 4, 5, 6, 7, 8]
    { Format := 9, Length := 4 } [5, 6, 7, 8] (by decide)
  exact ⟨h.1, (h.2.2.1 none [] (by decide)).1⟩

/-- C7: a structural error at any depth while decoding samples makes
`ParseSamples` return that error with a nil sample list — the Go loop's
accumulated slice is discarded, never returned partially — and errors
raised inside a sample body (here: by the counter-sample aggregator)
propagate unchanged through the sample dispatcher. -/
theorem c7_no_partial_output :
    (∀ (n : Nat) (data : List Nat) (acc : List (Option Sflow.Sample)) (e : Sflow.Err),
      (Sflow.parseSamplesGo n data acc).2 = some e →
      (Sflow.parseSamplesGo n data acc).1 = none) ∧
    (∀ (h : Sflow.Header) (data : List Nat) (e : Sflow.Err),
      (h.ParseSamples data).2 = some e → (h.ParseSamples data).1 = none) ∧
    (∀ (n : Nat) (data : List Nat) (acc : List (Option Sflow.Sample)) (e : Sflow.Err),
      Sflow.DataFormat.Parse data = .error e →
      Sflow.parseSamplesGo (n + 1) data acc = (none, some e)) ∧
    (∀ (df : Sflow.DataFormat) (data : List Nat) (e : Sflow.Err),
      df.Format = Sflow.CounterSamplesType →
      ¬ data.length % 2 ^ 32 < df.Length →
      Sflow.CounterSamples.Parse (data.take df.Length) = .error e →
      df.ParseSample data = .error e) := by
  have main : ∀ (n : Nat) (data : List Nat) (acc : List (Option Sflow.Sample)) (e : Sflow.Err),
      (Sflow.parseSamplesGo n data acc).2 = some e →
      (Sflow.parseSamplesGo n data acc).1 = none := by
    intro n
    induction n with
    | zero =>
      intro data acc e h
      exact absurd h (by simp [Sflow.parseSamplesGo])
    | succ m ih =>
      intro data acc e h
      unfold Sflow.parseSamplesGo at h ⊢
      cases hp : Sflow.DataFormat.Parse data with
      | error e1 => simp [hp]
      | ok pr =>
        obtain ⟨df, data1⟩ := pr
        simp only [hp] at h ⊢
        cases hs : df.ParseSample data1 with
        | error e2 => simp [hs]
        | ok pr2 =>
          obtain ⟨s, data2⟩ := pr2
          simp only [hs] at h ⊢
          exact ih data2 (acc ++ [s]) e h
  refine ⟨main, ?_, ?_, ?_⟩
  · intro h data e hx
    exact main h.NumSamples data [] e hx
  · intro n data acc e herr
    unfold Sflow.parseSamplesGo
    simp only [herr]
  · intro df data e hfmt hguard hparse
    unfold Sflow.DataFormat.ParseSample
    rw [if_neg hguard, if_pos hfmt, hparse]

/-- C7 witness: one declared sample over an empty buffer — the envelope
reader's `TooShort` surfaces as `(nil, TooShort)` through the loop and
through `Header.ParseSamples`; and a counter-sample body that is too
short propagates its error out of the sample dispatcher. -/
theorem c7_no_partial_output_witness :
    Sflow.parseSamplesGo 1 [] [] = (none, some Sflow.Err.TooShort) ∧
    (Sflow.parseSamplesGo 1 [] []).1 = none ∧
    ((Sflow.Header.mk 0 0 [] 0 0 0 1).ParseSamples []).1 = none ∧
    Sflow.DataFormat.ParseSample { Format := 2, Length := 0 } [] =
      .error Sflow.Err.TooShort := by
  have h := c7_no_partial_output
  exact ⟨h.2.2.1 0 [] [] .TooShort (by decide),
         h.1 1 [] [] .TooShort (by decide),
         h.2.1 (Sflow.Header.mk 0 0 [] 0 0 0 1) [] .TooShort (by decide),
         h.2.2.2 { Format := 2, Length := 0 } [] .TooShort (by decide) (by decide) (by decide)⟩

end Sflow
